import Mathlib

/-!
Verification of the ingestion-to-retrieval-to-generation pipeline of the RAG
backend (`backend/app/services/...`).  Python functions are shallowly embedded
as Lean definitions: external collaborators (the vector index, the language
model, the embedding provider, pandas rendering, the random sampler, the byte
extractors) appear as explicit function parameters or `Except` outcomes, and
Python's wall-clock readings appear as explicit integer inputs.  Strings are
Lean `String`s (Python `str` over its code points); Python's stable `sorted`
is modelled by a stable insertion sort, which produces the same list.
-/

namespace Rag

/-! ## Python string primitives used by the services -/

/-- The ASCII whitespace characters stripped by Python's `str.strip()`. -/
def isPySpace (c : Char) : Bool :=
  c = ' ' || c = '\t' || c = '\n' || c = '\r' || c = '\x0b' || c = '\x0c'

/-- `str.strip(chars)`: drop characters satisfying `p` from both ends. -/
def pyStripWith (p : Char → Bool) (s : String) : String :=
  ⟨((s.data.dropWhile p).reverse.dropWhile p).reverse⟩

/-- Python `str.strip()` (no argument): strip whitespace from both ends. -/
def pyStrip (s : String) : String :=
  pyStripWith isPySpace s

/-- If `pat` is an initial run of `l`, return the remainder after it. -/
def dropPat : List Char → List Char → Option (List Char)
  | [], l => some l
  | _ :: _, [] => none
  | p :: ps, c :: cs => if p = c then dropPat ps cs else none

/-- Left-to-right scan for `pySplit`; `fuel` bounds the recursion (the input
length always suffices for a non-empty pattern). -/
def pySplitAux (pat : List Char) : Nat → List Char → List Char → List (List Char)
  | _, [], cur => [cur.reverse]
  | 0, l, cur => [cur.reverse ++ l]
  | fuel + 1, c :: cs, cur =>
    match dropPat pat (c :: cs) with
    | some rest => cur.reverse :: pySplitAux pat fuel rest []
    | none => pySplitAux pat fuel cs (c :: cur)

/-- Python `s.split(pat)` for a non-empty separator `pat`: split at every
(non-overlapping, leftmost-first) occurrence. -/
def pySplit (s pat : String) : List String :=
  (pySplitAux pat.data s.data.length s.data []).map (fun l => ⟨l⟩)

/-- Python `pat in s` for a non-empty pattern, via the same splitting
primitive the fallback extractor uses: the pattern occurs iff splitting
yields two or more parts. -/
def pyContains (s pat : String) : Bool :=
  2 ≤ (pySplit s pat).length

theorem pyStripWith_length_le (p : Char → Bool) (s : String) :
    (pyStripWith p s).length ≤ s.length := by
  unfold pyStripWith
  simp only [String.length]
  calc (((s.data.dropWhile p).reverse.dropWhile p).reverse).length
      = ((s.data.dropWhile p).reverse.dropWhile p).length := by
        rw [List.length_reverse]
    _ ≤ (s.data.dropWhile p).reverse.length :=
        ((List.dropWhile_suffix p).sublist).length_le
    _ = (s.data.dropWhile p).length := by rw [List.length_reverse]
    _ ≤ s.data.length := ((List.dropWhile_suffix p).sublist).length_le

theorem pyStrip_length_le (s : String) : (pyStrip s).length ≤ s.length :=
  pyStripWith_length_le _ s

/-! ## Chunking Engine (`chunking_service.py`)

`ChunkingService.split_text` guards short or blank input before delegating to
the configured splitter.  The delegate (`RecursiveCharacterTextSplitter`,
`TokenTextSplitter`, ... , or the semantic chunker with its recursive
fallback) is an external library object, passed here as the `splitter`
parameter; `min_chunk_size` comes from the service's `ChunkingConfig`. -/

/-- `ChunkingService.split_text`:
`if not text or len(text.strip()) < self.config.min_chunk_size:
   return [text] if text and text.strip() else []`,
otherwise delegate to the configured splitter. -/
def split_text (splitter : String → List String) (min_chunk_size : Nat)
    (text : String) : List String :=
  if text = "" ∨ (pyStrip text).length < min_chunk_size then
    if text ≠ "" ∧ pyStrip text ≠ "" then [text] else []
  else
    splitter text

/-- Claim C9: for every input text shorter than the configured minimum chunk
size, `split_text` returns the input unchanged as a single segment; for blank
(empty or whitespace-only) input it returns the empty sequence. -/
theorem C9_split_text_short_input (splitter : String → List String)
    (min_chunk_size : Nat) (text : String) (h : text.length < min_chunk_size) :
    split_text splitter min_chunk_size text =
      if text = "" ∨ pyStrip text = "" then [] else [text] := by
  have hs : (pyStrip text).length < min_chunk_size :=
    lt_of_le_of_lt (pyStrip_length_le text) h
  unfold split_text
  rw [if_pos (Or.inr hs)]
  by_cases h1 : text = ""
  · simp [h1]
  · by_cases h2 : pyStrip text = ""
    · simp [h1, h2]
    · simp [h1, h2]

/-- Witness for C9 at concrete inputs: `"hi"` (short, non-blank) comes back as
a single segment, `" "` (blank) as the empty sequence. -/
theorem C9_split_text_short_input_witness :
    split_text (fun _ => []) 3 "hi" = ["hi"] ∧
    split_text (fun _ => []) 3 " " = [] := by
  constructor
  · rw [C9_split_text_short_input (fun _ => []) 3 "hi" (by decide)]
    decide
  · rw [C9_split_text_short_input (fun _ => []) 3 " " (by decide)]
    decide

/-! ## Structured Extraction fallback (`structured_extraction.py`)

`StructuredDataExtractor._fallback_extraction_with_pydantic` scans the raw
model response for each schema key: it requires the key to occur *quoted*
(`"key"` or the single-quoted form), takes the text after the first
occurrence (Python `split` yields the text up to the next occurrence),
strips whitespace and colons, and reads one quoted value. -/

/-- The single-quote character (written via its code point). -/
def squoteChar : Char := Char.ofNat 39

/-- The double-quote character (written via its code point). -/
def dquoteChar : Char := Char.ofNat 34

/-- A one-character string holding a single quote. -/
def squote : String := ⟨[squoteChar]⟩

/-- The quoted-value scan on `value_part`:
`end_quote = value_part[0]; end_idx = value_part[1:].find(end_quote) + 1;
 if end_idx > 0: data[field_name] = value_part[1:end_idx]`. -/
def extract_quoted_value (value_part : List Char) : Option String :=
  match value_part with
  | [] => none
  | q :: rest =>
    if q = dquoteChar ∨ q = squoteChar then
      match rest.findIdx? (fun c => c = q) with
      | some i => some ⟨rest.take i⟩
      | none => none
    else none

/-- `StructuredDataExtractor._fallback_extraction_with_pydantic` (the loop
body; the surrounding `try/except` can only return the mapping built so far
or `{}`, and every step here is total).  The insertion-ordered Python dict
over the schema's keys is an association list in schema-key order. -/
def fallback_extraction (result : String) (schema_keys : List String) :
    List (String × String) :=
  schema_keys.filterMap (fun field_name =>
    let dq := "\"" ++ field_name ++ "\""
    let sq := squote ++ field_name ++ squote
    if pyContains result dq ∨ pyContains result sq then
      let parts0 := pySplit result dq
      let parts := if parts0.length < 2 then pySplit result sq else parts0
      match parts with
      | _ :: second :: _ =>
        (extract_quoted_value
            (pyStrip (pyStripWith (fun c => c = ':') (pyStrip second))).data).map
          (fun v => (field_name, v))
      | _ => none
    else none)

theorem map_fst_filterMap_sublist {α β : Type} (f : α → Option (α × β))
    (hf : ∀ k p, f k = some p → p.1 = k) :
    ∀ keys : List α, ((keys.filterMap f).map Prod.fst).Sublist keys := by
  intro keys
  induction keys with
  | nil => simp
  | cons k ks ih =>
    rw [List.filterMap_cons]
    cases h : f k with
    | none => exact ih.cons k
    | some p =>
      rw [List.map_cons, hf k p h]
      exact ih.cons₂ k

/-- Claim C4 (amended): the fallback scan is total and returns a best-effort
partial mapping over a subset of the schema keys, in schema order (worst case
empty); a non-JSON prose response in which the field name occurs **quoted**,
such as `"title": "Hello"`, yields the mapping `title ↦ Hello`.  (The
unquoted form `title: "Hello"` is not recovered — see the counterexample.) -/
theorem C4_fallback_extraction_amended :
    (∀ (result : String) (schema_keys : List String),
      ((fallback_extraction result schema_keys).map Prod.fst).Sublist
        schema_keys)
    ∧ fallback_extraction "I think \"title\": \"Hello\" fits." ["title"] =
        [("title", "Hello")] := by
  constructor
  · intro result schema_keys
    apply map_fst_filterMap_sublist
    intro k p h
    simp only at h
    split at h
    · split at h
      · simp only [Option.map_eq_some'] at h
        obtain ⟨v, _, hv⟩ := h
        rw [← hv]
      · exact absurd h (by simp)
    · exact absurd h (by simp)
  · decide

/-- Counterexample to claim C4 as stated: a non-JSON prose response containing
`title: "Hello"` (field name unquoted) against schema keys `["title"]` yields
the empty mapping, not `title ↦ Hello`: the scan only matches quoted keys. -/
theorem C4_fallback_extraction_counterexample :
    fallback_extraction "Our title: \"Hello\" story." ["title"] = [] ∧
    fallback_extraction "Our title: \"Hello\" story." ["title"] ≠
      [("title", "Hello")] := by
  decide

/-! ## Vector Store embedding-provider selection (`vector_store.py`)

`VectorStore._get_embeddings` selects the embedding provider from
configuration.  Network construction/smoke tests of the two provider clients
are external effects, passed in as `Except` outcomes.  Python truthiness of
the credential strings is non-emptiness (`all([...])`). -/

/-- The configuration fields `_get_embeddings` reads. -/
structure EmbedSettings where
  EMBEDDING_PROVIDER : String
  OPENAI_API_KEY : String
  AZURE_OPENAI_API_KEY : String
  AZURE_OPENAI_ENDPOINT : String
  AZURE_EMBEDDING_DEPLOYMENT : String
deriving DecidableEq

/-- How a call to `_get_embeddings` ends: an embeddings object for the named
provider, a raised exception (loud failure), or Python's implicit `return
None` when control falls off the end of the function. -/
inductive EmbedInit where
  | obj : String → EmbedInit
  | raised : String → EmbedInit
  | silentNone : EmbedInit
deriving DecidableEq

/-- `VectorStore._get_embeddings`.  `azure_init` / `openai_init` stand for the
construction plus `embed_query` smoke test of the respective client.  Note the
`azure` branch: when the three Azure credentials are not all set, the body of
the outer `if` is skipped and no other branch applies, so the function falls
through and implicitly returns `None`. -/
def get_embeddings (s : EmbedSettings) (azure_init openai_init : Except String Unit) :
    EmbedInit :=
  if s.EMBEDDING_PROVIDER = "azure" then
    if s.AZURE_OPENAI_API_KEY ≠ "" ∧ s.AZURE_OPENAI_ENDPOINT ≠ "" ∧
        s.AZURE_EMBEDDING_DEPLOYMENT ≠ "" then
      match azure_init with
      | .ok _ => .obj "azure"
      | .error e => .raised ("Failed to initialize Azure OpenAI embeddings: " ++ e)
    else
      .silentNone
  else if s.EMBEDDING_PROVIDER = "openai" then
    if s.OPENAI_API_KEY = "" then
      .raised "OPENAI_API_KEY is not configured in the environment but EMBEDDING_PROVIDER is set to openai"
    else
      match openai_init with
      | .ok _ => .obj "openai"
      | .error e => .raised ("Failed to initialize OpenAI embeddings: " ++ e)
  else
    .raised ("Unknown EMBEDDING_PROVIDER: " ++ s.EMBEDDING_PROVIDER)

/-- Claim C6 fails on the code: with `EMBEDDING_PROVIDER = "azure"` and a
missing Azure credential, `_get_embeddings` raises nothing and silently
returns `None` (the store then carries `embeddings = None` into every
collection it creates), while the sibling branches (OpenAI key missing,
unknown provider, failed construction) all raise.  This theorem evaluates
the code at such a failing input. -/
theorem C6_get_embeddings_silent_none :
    get_embeddings
      { EMBEDDING_PROVIDER := "azure", OPENAI_API_KEY := "sk-x",
        AZURE_OPENAI_API_KEY := "", AZURE_OPENAI_ENDPOINT := "https://e",
        AZURE_EMBEDDING_DEPLOYMENT := "emb" }
      (Except.ok ()) (Except.ok ()) = EmbedInit.silentNone
    ∧ get_embeddings
      { EMBEDDING_PROVIDER := "mistral", OPENAI_API_KEY := "sk-x",
        AZURE_OPENAI_API_KEY := "k", AZURE_OPENAI_ENDPOINT := "https://e",
        AZURE_EMBEDDING_DEPLOYMENT := "emb" }
      (Except.ok ()) (Except.ok ()) =
      EmbedInit.raised "Unknown EMBEDDING_PROVIDER: mistral"
    ∧ get_embeddings
      { EMBEDDING_PROVIDER := "openai", OPENAI_API_KEY := "",
        AZURE_OPENAI_API_KEY := "", AZURE_OPENAI_ENDPOINT := "",
        AZURE_EMBEDDING_DEPLOYMENT := "" }
      (Except.ok ()) (Except.ok ()) =
      EmbedInit.raised "OPENAI_API_KEY is not configured in the environment but EMBEDDING_PROVIDER is set to openai" := by
  refine ⟨by decide, by decide, by decide⟩

/-! ## Format Parsers (`parsers/document_parser.py`, `parsers/text_parser.py`)

The byte-level extractors (PyMuPDF page text, UTF-8 decoding) are external;
a parser receives the extracted per-page / whole-file text.  Documents carry
their text plus a string-keyed metadata map. -/

/-- A metadata value: the repo stores strings (filenames, URLs, formats) and
integers (page numbers, chunk indices). -/
inductive MetaVal where
  | s : String → MetaVal
  | n : Int → MetaVal
deriving DecidableEq

/-- A produced segment: extracted text plus a metadata map (a Python dict,
modelled as an association list with unique keys in insertion order). -/
structure Doc where
  page_content : String
  metadata : List (String × MetaVal)
deriving DecidableEq

/-- Python `text.replace(chr(0), "")`: drop every NUL character. -/
def remove_nul (s : String) : String :=
  ⟨s.data.filter (fun c => c ≠ '\x00')⟩

/-- Whether a string contains a NUL character. -/
def has_nul (s : String) : Bool :=
  s.data.any (fun c => c = '\x00')

/-- The per-page loop of `DocumentParser.parse_pdf`: for each extracted page
text, strip NUL characters, skip the page if it is empty after stripping,
else emit a segment tagged with its 1-based page number. -/
def parse_pdf_pages (pages : List String) : List Doc :=
  pages.enum.filterMap (fun p =>
    let text := remove_nul p.2
    if pyStrip text = "" then none
    else some { page_content := text,
                metadata := [("page_num", MetaVal.n (p.1 + 1)), ("format", MetaVal.s "pdf")] })

/-- `TextParser.parse_text`: wrap the decoded file text, unmodified, in a
single segment (no NUL stripping, no blank-page skipping). -/
def parse_text (text : String) : List Doc :=
  [{ page_content := text, metadata := [("format", MetaVal.s "text")] }]

theorem remove_nul_has_nul (s : String) : has_nul (remove_nul s) = false := by
  unfold has_nul remove_nul
  simp only [List.any_eq_false]
  intro c hc
  have := List.of_mem_filter hc
  simpa using this

/-- Claim C7 (amended): the document parser's PDF path strips NUL bytes from
every produced segment and skips pages that are empty after stripping, so
none of **its** segments contains a NUL and none is blank; but this does not
hold of every parser (see the counterexample). -/
theorem C7_parse_pdf_strips_nul (pages : List String) (d : Doc)
    (hd : d ∈ parse_pdf_pages pages) :
    has_nul d.page_content = false ∧ pyStrip d.page_content ≠ "" := by
  unfold parse_pdf_pages at hd
  obtain ⟨p, _, hp⟩ := List.mem_filterMap.mp hd
  by_cases hblank : pyStrip (remove_nul p.2) = ""
  · rw [if_pos hblank] at hp
    exact absurd hp (by simp)
  · rw [if_neg hblank] at hp
    obtain ⟨rfl⟩ := Option.some.inj hp
    exact ⟨remove_nul_has_nul p.2, hblank⟩

/-- Witness for C7 (amended) at a concrete input: the PDF page list
`["Page 1", " ", "a\x00b"]` yields the segment `"ab"`, which is NUL-free and
non-blank. -/
theorem C7_parse_pdf_strips_nul_witness :
    has_nul ("ab" : String) = false ∧ pyStrip ("ab" : String) ≠ "" :=
  C7_parse_pdf_strips_nul ["Page 1", " ", "a\x00b"]
    { page_content := "ab",
      metadata := [("page_num", MetaVal.n 3), ("format", MetaVal.s "pdf")] }
    (by decide)

/-- Counterexample to claim C7 as stated: not every parser strips NUL bytes.
`TextParser.parse_text` (dispatched for every `text/*` MIME type) returns the
decoded text unchanged, so a text file containing a NUL yields a segment that
still contains it. -/
theorem C7_parse_text_counterexample :
    (parse_text "a\x00b").map Doc.page_content = ["a\x00b"] ∧
    (parse_text "a\x00b").any (fun d => has_nul d.page_content) = true := by
  decide

/-! ## Generation Orchestrator (`retrieval/generator.py`)

The language model is an external provider: its single invocation is a
function `String → Except String String` (`.error` = the provider raised).
`generate_response` delegates retrieval to the Retrieval Engine, whose
returned documents/context arrive here as an explicit input, and reads the
wall clock; the three elapsed readings are explicit integer inputs.  The
best-effort query-log write touches no returned field and is omitted. -/

/-- One language-model invocation (`self.llm.invoke`). -/
abbrev LLM := String → Except String String

/-- `RAGGenerator.call_llm`: `None` model yields the fixed unavailability
string; a raised invocation is caught and rendered as an error string; a
successful invocation yields its content.  It never raises. -/
def call_llm (llm : Option LLM) (prompt : String) : String :=
  match llm with
  | none => "Error: Language model not available. Please check your configuration."
  | some f =>
    match f prompt with
    | .ok content => content
    | .error e => "Error generating response: " ++ e

/-- The guardrailed prompt of `_create_prompt_template`, rendered with
`{context}` and `{query}` substituted (the Python source indents each line of
the triple-quoted template; the text is what matters here). -/
def rag_prompt (context query : String) : String :=
  "You are a helpful assistant that ONLY provides information based on the documents in the provided context.\n" ++
  "IMPORTANT GUARDRAILS:\n" ++
  "1. You MUST answer questions using ONLY the information in the Context section below\n" ++
  "2. If the answer is not found in the provided context, you MUST respond with: I do not have information about that in the available documents.\n" ++
  "3. DO NOT use external knowledge, internet searches, or information outside the provided context\n" ++
  "4. DO NOT make assumptions or inferences beyond what is explicitly stated in the context\n" ++
  "5. If asked to do something outside of answering questions from the documents, respond with: I can only answer questions based on the available documents.\n" ++
  "Context from documents:\n" ++ context ++ "\n" ++
  "Question: " ++ query ++ "\n" ++
  "Answer (based ONLY on the context above):"

/-- What the Retrieval Engine handed back (the fields `generate_response`
reads from `retrieval_result`). -/
structure RetrievalHandoff where
  documents : List Doc
  context : String
deriving DecidableEq

/-- The `metrics` mapping of a generation result; absent keys are `none`. -/
structure GenMetrics where
  total_time_seconds : Option Int := none
  retrieval_time_seconds : Option Int := none
  generation_time_seconds : Option Int := none
  total_documents : Option Nat := none
  error : Option String := none
deriving DecidableEq

/-- The dictionary returned by `RAGGenerator.generate_response`. -/
structure GenResult where
  answer : String
  context : String
  documents : List Doc
  metrics : GenMetrics
deriving DecidableEq

/-- `RAGGenerator.generate_response`.  `t_total`, `t_retrieval` and `t_gen`
are the elapsed wall-clock readings the code takes.  The source wraps the
model call in `try/except`, returning a result whose metrics carry the
retrieval time but no generation time — but `call_llm` catches every
invocation failure internally and returns an error string, so that branch is
unreachable for model failures and does not appear in the embedding. -/
def generate_response (llm : Option LLM) (query : String)
    (retrieval : RetrievalHandoff) (t_total t_retrieval t_gen : Int) :
    GenResult :=
  match llm with
  | none =>
    { answer := "Error: Language model not available. Please check your configuration.",
      context := "", documents := [],
      metrics := { error := some "LLM not initialized" } }
  | some f =>
    if retrieval.context = "" then
      { answer := "I couldn't find any relevant information to answer your question.",
        context := "", documents := [],
        metrics := { total_time_seconds := some t_total,
                     retrieval_time_seconds := some t_retrieval,
                     generation_time_seconds := some 0,
                     total_documents := some 0 } }
    else
      { answer := call_llm (some f) (rag_prompt retrieval.context query),
        context := retrieval.context, documents := retrieval.documents,
        metrics := { total_time_seconds := some t_total,
                     retrieval_time_seconds := some t_retrieval,
                     generation_time_seconds := some t_gen,
                     total_documents := some retrieval.documents.length } }

/-- Claim C2: whenever retrieval returns an empty context (and a model is
initialized), `generate_response` returns the fixed "no relevant information"
answer with `generation_time_seconds = 0`, and the model is not invoked: the
result does not depend on the model's behaviour at all. -/
theorem C2_empty_context_short_circuit (f : LLM) (query : String)
    (retrieval : RetrievalHandoff) (t_total t_retrieval t_gen : Int)
    (h : retrieval.context = "") :
    generate_response (some f) query retrieval t_total t_retrieval t_gen =
      { answer := "I couldn't find any relevant information to answer your question.",
        context := "", documents := [],
        metrics := { total_time_seconds := some t_total,
                     retrieval_time_seconds := some t_retrieval,
                     generation_time_seconds := some 0,
                     total_documents := some 0, error := none } }
    ∧ ∀ g : LLM,
        generate_response (some f) query retrieval t_total t_retrieval t_gen =
        generate_response (some g) query retrieval t_total t_retrieval t_gen := by
  constructor
  · simp only [generate_response, h, if_pos]
  · intro g
    simp only [generate_response, h, if_pos]

/-- Witness for C2 at a concrete input (empty retrieval handoff, a model that
would answer `"A"` if it were ever invoked). -/
theorem C2_empty_context_short_circuit_witness :
    generate_response (some (fun _ => Except.ok "A")) "q"
      { documents := [], context := "" } 5 2 3 =
      { answer := "I couldn't find any relevant information to answer your question.",
        context := "", documents := [],
        metrics := { total_time_seconds := some 5,
                     retrieval_time_seconds := some 2,
                     generation_time_seconds := some 0,
                     total_documents := some 0, error := none } } :=
  (C2_empty_context_short_circuit (fun _ => Except.ok "A") "q"
    { documents := [], context := "" } 5 2 3 rfl).1

/-- Claim C3 (amended): when the model invocation fails, the exception is
caught *inside* `call_llm`, which returns the string
`"Error generating response: <e>"`; `generate_response` therefore returns
normally (never raises) with that string as the answer and with metrics that
carry **both** the retrieval time and the generation time — the source's
generation-time-absent error branch is unreachable for model-invocation
failures. -/
theorem C3_llm_failure_caught_in_call_llm (f : LLM) (e : String)
    (query : String) (retrieval : RetrievalHandoff)
    (t_total t_retrieval t_gen : Int)
    (hctx : retrieval.context ≠ "")
    (hfail : f (rag_prompt retrieval.context query) = Except.error e) :
    generate_response (some f) query retrieval t_total t_retrieval t_gen =
      { answer := "Error generating response: " ++ e,
        context := retrieval.context, documents := retrieval.documents,
        metrics := { total_time_seconds := some t_total,
                     retrieval_time_seconds := some t_retrieval,
                     generation_time_seconds := some t_gen,
                     total_documents := some retrieval.documents.length,
                     error := none } } := by
  simp only [generate_response, call_llm, hctx, if_neg, hfail, if_false]

/-- Witness for C3 (amended) at a concrete input (a model that raises
`"boom"`). -/
theorem C3_llm_failure_caught_in_call_llm_witness :
    generate_response (some (fun _ => Except.error "boom")) "q"
      { documents := [{ page_content := "d", metadata := [] }], context := "ctx" }
      9 4 7 =
      { answer := "Error generating response: boom",
        context := "ctx",
        documents := [{ page_content := "d", metadata := [] }],
        metrics := { total_time_seconds := some 9,
                     retrieval_time_seconds := some 4,
                     generation_time_seconds := some 7,
                     total_documents := some 1, error := none } } :=
  C3_llm_failure_caught_in_call_llm (fun _ => Except.error "boom") "boom" "q"
    { documents := [{ page_content := "d", metadata := [] }], context := "ctx" }
    9 4 7 (by decide) rfl

/-- Counterexample to claim C3 as stated: at a failing model invocation the
returned metrics **do** contain a generation time (here `7`), contradicting
"retrieval time present, generation time absent". -/
theorem C3_generation_time_present_counterexample :
    (generate_response (some (fun _ => Except.error "boom")) "q"
      { documents := [], context := "ctx" } 9 4 7).metrics.generation_time_seconds
      = some 7 ∧ (some (7 : Int)) ≠ (none : Option Int) := by
  exact ⟨rfl, by decide⟩

/-! ## A stable sort modelling Python's `sorted(..., key=...)`

Python's `sorted` is an ascending stable sort.  A stable insertion sort by
the same key produces the identical list (the stable ascending ordering of a
list is unique), and is what the retriever's ranking and the context
assembler's chunk ordering are interpreted through below. -/

/-- Insert `a` before the first element whose key is not smaller. -/
def ordered_insert_by {α : Type} (key : α → Int) (a : α) : List α → List α
  | [] => [a]
  | b :: l => if key a ≤ key b then a :: b :: l else b :: ordered_insert_by key a l

/-- Stable ascending insertion sort by an integer key. -/
def stable_sort_by {α : Type} (key : α → Int) : List α → List α
  | [] => []
  | a :: l => ordered_insert_by key a (stable_sort_by key l)

theorem perm_ordered_insert_by {α : Type} (key : α → Int) (a : α) :
    ∀ l : List α, (ordered_insert_by key a l).Perm (a :: l) := by
  intro l
  induction l with
  | nil => simp [ordered_insert_by]
  | cons b l ih =>
    unfold ordered_insert_by
    by_cases h : key a ≤ key b
    · rw [if_pos h]
    · rw [if_neg h]
      exact (ih.cons b).trans (List.Perm.swap a b l)

theorem perm_stable_sort_by {α : Type} (key : α → Int) :
    ∀ l : List α, (stable_sort_by key l).Perm l := by
  intro l
  induction l with
  | nil => simp [stable_sort_by]
  | cons a l ih =>
    exact (perm_ordered_insert_by key a (stable_sort_by key l)).trans (ih.cons a)

theorem length_stable_sort_by {α : Type} (key : α → Int) (l : List α) :
    (stable_sort_by key l).length = l.length :=
  (perm_stable_sort_by key l).length_eq

theorem mem_ordered_insert_by {α : Type} (key : α → Int) (a x : α) (l : List α) :
    x ∈ ordered_insert_by key a l ↔ x = a ∨ x ∈ l := by
  rw [(perm_ordered_insert_by key a l).mem_iff]
  simp

theorem pairwise_ordered_insert_by {α : Type} (key : α → Int) (a : α)
    (l : List α) (h : l.Pairwise (fun x y => key x ≤ key y)) :
    (ordered_insert_by key a l).Pairwise (fun x y => key x ≤ key y) := by
  induction l with
  | nil => simp [ordered_insert_by]
  | cons b l ih =>
    rw [List.pairwise_cons] at h
    unfold ordered_insert_by
    by_cases hab : key a ≤ key b
    · rw [if_pos hab, List.pairwise_cons]
      refine ⟨?_, List.pairwise_cons.mpr h⟩
      intro x hx
      rcases List.mem_cons.mp hx with hxb | hxl
      · exact hxb ▸ hab
      · exact le_trans hab (h.1 x hxl)
    · rw [if_neg hab, List.pairwise_cons]
      refine ⟨?_, ih h.2⟩
      intro x hx
      rcases (mem_ordered_insert_by key a x l).mp hx with rfl | hxl
      · exact le_of_lt (lt_of_not_le hab)
      · exact h.1 x hxl

theorem pairwise_stable_sort_by {α : Type} (key : α → Int) :
    ∀ l : List α, (stable_sort_by key l).Pairwise (fun x y => key x ≤ key y) := by
  intro l
  induction l with
  | nil => simp [stable_sort_by]
  | cons a l ih => exact pairwise_ordered_insert_by key a _ ih

theorem filter_ordered_insert_by_eq {α : Type} (key : α → Int) (a : α)
    (v : Int) (hv : key a = v) :
    ∀ l : List α,
      (ordered_insert_by key a l).filter (fun x => key x = v) =
        a :: l.filter (fun x => key x = v) := by
  intro l
  induction l with
  | nil => simp [ordered_insert_by, List.filter, hv]
  | cons b l ih =>
    unfold ordered_insert_by
    by_cases hab : key a ≤ key b
    · rw [if_pos hab]
      simp [List.filter, hv]
    · have hbv : ¬ (key b = v) := by
        intro hb
        exact hab (le_of_eq (hv ▸ hb.symm ▸ rfl))
      rw [if_neg hab]
      simp only [List.filter_cons]
      rw [if_neg (by simpa using hbv), if_neg (by simpa using hbv)]
      exact ih

theorem filter_ordered_insert_by_ne {α : Type} (key : α → Int) (a : α)
    (v : Int) (hv : key a ≠ v) :
    ∀ l : List α,
      (ordered_insert_by key a l).filter (fun x => key x = v) =
        l.filter (fun x => key x = v) := by
  intro l
  induction l with
  | nil => simp [ordered_insert_by, List.filter, hv]
  | cons b l ih =>
    unfold ordered_insert_by
    by_cases hab : key a ≤ key b
    · rw [if_pos hab]
      simp only [List.filter_cons]
      rw [if_neg (by simpa using hv)]
    · rw [if_neg hab]
      simp only [List.filter_cons]
      by_cases hb : key b = v
      · rw [if_pos (by simpa using hb), if_pos (by simpa using hb), ih]
      · rw [if_neg (by simpa using hb), if_neg (by simpa using hb), ih]

/-- Stability: the sort keeps elements of any one key class in their original
relative order. -/
theorem filter_stable_sort_by {α : Type} (key : α → Int) (v : Int) :
    ∀ l : List α,
      (stable_sort_by key l).filter (fun x => key x = v) =
        l.filter (fun x => key x = v) := by
  intro l
  induction l with
  | nil => simp [stable_sort_by]
  | cons a l ih =>
    unfold stable_sort_by
    by_cases hv : key a = v
    · rw [filter_ordered_insert_by_eq key a v hv, ih]
      simp [List.filter_cons, hv]
    · rw [filter_ordered_insert_by_ne key a v hv, ih]
      simp [List.filter_cons, hv]

/-! ## Retrieval Engine (`retrieval/retriever.py`)

`RAGRetriever.retrieve_for_rag` fans a query out over collections through the
vector store (`search_with_score`, an external call that either returns
scored documents or raises — raised searches are caught and skipped), then
ranks, truncates, and assembles a context.  `settings.COLLECTIONS` is the
`Dict[str, str]` of `config.py`, modelled as an association list, so the
source's `isinstance(..., dict)` checks are resolved by type. -/

/-- Python `s.rstrip(chars)`: drop trailing characters satisfying `p`. -/
def pyStripRight (p : Char → Bool) (s : String) : String :=
  ⟨(s.data.reverse.dropWhile p).reverse⟩

/-- Dictionary lookup on an association-list metadata map. -/
def metaGet (m : List (String × MetaVal)) (k : String) : Option MetaVal :=
  (m.find? (fun p => p.1 = k)).map (fun p => p.2)

/-- `str(value)` as an f-string renders it. -/
def mvStr : MetaVal → String
  | .s v => v
  | .n i => toString i

/-- `RAGRetriever._get_source_identifier`: filename, then URL with query
string and trailing slashes stripped, then title, then source, else a
synthesized `Document <id>` label. -/
def get_source_identifier (d : Doc) : String :=
  match metaGet d.metadata "filename" with
  | some v => mvStr v
  | none =>
    match metaGet d.metadata "url" with
    | some v => pyStripRight (fun c => c = '/') ((pySplit (mvStr v) "?").headD "")
    | none =>
      match metaGet d.metadata "title" with
      | some v => mvStr v
      | none =>
        match metaGet d.metadata "source" with
        | some v => mvStr v
        | none =>
          "Document " ++ (match metaGet d.metadata "id" with
                          | some v => mvStr v
                          | none => "unknown")

/-- `x.metadata.get("chunk", 0)`: the within-source ordering key (the repo
writes only integer chunk indices — `web_parser.py` — so a non-numeric value
never occurs). -/
def chunk_key (d : Doc) : Int :=
  match metaGet d.metadata "chunk" with
  | some (.n i) => i
  | _ => 0

/-- The per-source grouping of `_generate_context` (a Python dict keyed by
source identifier, in first-seen order). -/
def group_sources (docs : List Doc) : List (String × List Doc) :=
  docs.foldl (fun acc d =>
    let k := get_source_identifier d
    if acc.any (fun p => p.1 = k) then
      acc.map (fun p => if p.1 = k then (p.1, p.2 ++ [d]) else p)
    else
      acc ++ [(k, [d])]) []

/-- `RAGRetriever._generate_context`: group by source (first-seen order),
sort each group by chunk index (stable), render one block per source with a
`[Source: <id>]` header and blank-line-separated texts, then strip. -/
def generate_context (docs : List Doc) : String :=
  if docs = [] then ""
  else
    pyStrip ((group_sources docs).foldl (fun acc p =>
      acc ++ "[Source: " ++ p.1 ++ "]\n" ++
        ((stable_sort_by chunk_key p.2).foldl
          (fun a d => a ++ d.page_content ++ "\n\n") "")) "")

/-- The configuration fields `retrieve_for_rag` reads. -/
structure RetrieverSettings where
  COLLECTIONS : List (String × String)
  MAX_RETRIEVED_DOCUMENTS : Nat
deriving DecidableEq

/-- The default collection set when none is given: only the collection
configured under the `"documents"` key if that key exists, otherwise all
configured collection values. -/
def default_collection_names (s : RetrieverSettings) : List String :=
  match (s.COLLECTIONS.find? (fun p => p.1 = "documents")).map (fun p => p.2) with
  | some v => [v]
  | none => s.COLLECTIONS.map (fun p => p.2)

/-- A metadata filter value: equality or set membership (the `$in` form). -/
inductive FilterVal where
  | eq : String → FilterVal
  | inSet : List String → FilterVal
deriving DecidableEq

/-- Python dict assignment `filter_criteria[k] = v`. -/
def set_filter_key (fc : List (String × FilterVal)) (k : String)
    (v : FilterVal) : List (String × FilterVal) :=
  if fc.any (fun p => p.1 = k) then
    fc.map (fun p => if p.1 = k then (p.1, v) else p)
  else
    fc ++ [(k, v)]

/-- The document-scoping merge of `retrieve_for_rag`: a non-empty
`document_ids` list wins and becomes a `$in` constraint; else a non-empty
single `document_id` becomes an equality constraint. -/
def merge_document_scope (fc : List (String × FilterVal))
    (document_id : Option String) (document_ids : Option (List String)) :
    List (String × FilterVal) :=
  match document_ids with
  | some (id1 :: rest) => set_filter_key fc "document_id" (.inSet (id1 :: rest))
  | _ =>
    match document_id with
    | some id => if id = "" then fc else set_filter_key fc "document_id" (.eq id)
    | none => fc

/-- One `search_with_score` call against a named collection under a filter:
scored documents, or a raised exception (`.error`). -/
abbrev SearchFn := String → List (String × FilterVal) → Except Unit (List (Doc × Int))

/-- The per-collection loop: concatenate each collection's scored results in
collection order; a collection whose search raises is caught, logged and
skipped — it never aborts the others. -/
def gather_results (search : SearchFn) (names : List String)
    (fc : List (String × FilterVal)) : List (Doc × Int) :=
  names.foldl (fun acc name =>
    match search name fc with
    | .ok ds => acc ++ ds
    | .error _ => acc) []

/-- The ranking step of `retrieve_for_rag`: **only** when more documents were
gathered than `MAX_RETRIEVED_DOCUMENTS` are they sorted ascending by score
(stable) and truncated; otherwise they are returned in gathered order.
Returns the kept documents and the filtered-out count. -/
def rank_and_truncate (max_docs : Nat) (pairs : List (Doc × Int)) :
    List Doc × Nat :=
  if max_docs < pairs.length then
    (((stable_sort_by (fun p => p.2) pairs).take max_docs).map Prod.fst,
     pairs.length - max_docs)
  else
    (pairs.map Prod.fst, 0)

/-- The dictionary returned by `retrieve_for_rag` (metrics inlined). -/
structure RetrieveResult where
  documents : List Doc
  context : String
  retrieval_time_seconds : Int
  total_documents : Nat
  filtered_documents : Nat
deriving DecidableEq

/-- `RAGRetriever.retrieve_for_rag`.  An empty `collection_names` list plays
Python's falsy `None`/`[]`. -/
def retrieve_for_rag (s : RetrieverSettings) (search : SearchFn)
    (collection_names : List String)
    (filter_criteria : List (String × FilterVal))
    (document_id : Option String) (document_ids : Option (List String))
    (t_retrieval : Int) : RetrieveResult :=
  let names := if collection_names = [] then default_collection_names s
               else collection_names
  let fc := merge_document_scope filter_criteria document_id document_ids
  let pairs := gather_results search names fc
  let ranked := rank_and_truncate s.MAX_RETRIEVED_DOCUMENTS pairs
  { documents := ranked.1,
    context := generate_context ranked.1,
    retrieval_time_seconds := t_retrieval,
    total_documents := ranked.1.length,
    filtered_documents := ranked.2 }

/-- Claim C1's ranking, in the claim's own words: sort ascending by raw
distance score (stable, ties in original order) and keep at most the global
top-`k` across all collections combined. -/
def ranked_per_claim (max_docs : Nat) (pairs : List (Doc × Int)) : List Doc :=
  ((stable_sort_by (fun p => p.2) pairs).take max_docs).map Prod.fst

/-- Claim C1 (amended): the gathered results are sorted ascending by raw
distance score with stable ties and truncated to `MAX_RETRIEVED_DOCUMENTS`
**only when more than `MAX_RETRIEVED_DOCUMENTS` were gathered**; otherwise
they are returned in per-collection concatenation order, unsorted.  In both
cases the kept set never exceeds `MAX_RETRIEVED_DOCUMENTS` (a global cap, not
per collection), the sort is ascending, and ties keep their original
per-collection return order. -/
theorem C1_ranking_amended (s : RetrieverSettings) (search : SearchFn)
    (collection_names : List String)
    (filter_criteria : List (String × FilterVal))
    (document_id : Option String) (document_ids : Option (List String))
    (t_retrieval : Int) :
    let names := if collection_names = [] then default_collection_names s
                 else collection_names
    let pairs := gather_results search names
      (merge_document_scope filter_criteria document_id document_ids)
    let r := retrieve_for_rag s search collection_names filter_criteria
      document_id document_ids t_retrieval
    (s.MAX_RETRIEVED_DOCUMENTS < pairs.length →
        r.documents = ranked_per_claim s.MAX_RETRIEVED_DOCUMENTS pairs ∧
        r.filtered_documents = pairs.length - s.MAX_RETRIEVED_DOCUMENTS)
    ∧ (pairs.length ≤ s.MAX_RETRIEVED_DOCUMENTS →
        r.documents = pairs.map Prod.fst ∧ r.filtered_documents = 0)
    ∧ r.documents.length ≤ s.MAX_RETRIEVED_DOCUMENTS
    ∧ (stable_sort_by (fun p => p.2) pairs).Pairwise (fun p q => p.2 ≤ q.2)
    ∧ ∀ v : Int,
        (stable_sort_by (fun p => p.2) pairs).filter (fun p => p.2 = v) =
          pairs.filter (fun p => p.2 = v) := by
  intro names pairs r
  have hr : r.documents = (rank_and_truncate s.MAX_RETRIEVED_DOCUMENTS pairs).1 ∧
      r.filtered_documents = (rank_and_truncate s.MAX_RETRIEVED_DOCUMENTS pairs).2 :=
    ⟨rfl, rfl⟩
  refine ⟨?_, ?_, ?_, pairwise_stable_sort_by _ pairs, fun v => filter_stable_sort_by _ v pairs⟩
  · intro hgt
    rw [hr.1, hr.2]
    unfold rank_and_truncate ranked_per_claim
    rw [if_pos hgt]
    exact ⟨rfl, rfl⟩
  · intro hle
    rw [hr.1, hr.2]
    unfold rank_and_truncate
    rw [if_neg (not_lt.mpr hle)]
    exact ⟨rfl, rfl⟩
  · rw [hr.1]
    unfold rank_and_truncate
    by_cases hgt : s.MAX_RETRIEVED_DOCUMENTS < pairs.length
    · rw [if_pos hgt]
      simp only [List.length_map, List.length_take, length_stable_sort_by]
      exact min_le_left _ _
    · rw [if_neg hgt]
      simp only [List.length_map]
      exact not_lt.mp hgt

/-- Witness for C1 (amended) at a concrete input: one overfull gather (three
results, cap two) is sorted/truncated, one underfull gather (two results,
cap five) is returned in gathered order. -/
theorem C1_ranking_amended_witness :
    (retrieve_for_rag ⟨[("documents", "dc")], 2⟩
        (fun name _ =>
          if name = "x" then
            Except.ok [({ page_content := "A", metadata := [] }, 9),
                       ({ page_content := "B", metadata := [] }, 1),
                       ({ page_content := "C", metadata := [] }, 5)]
          else Except.ok [])
        ["x"] [] none none 0).documents =
      [{ page_content := "B", metadata := [] },
       { page_content := "C", metadata := [] }] := by
  have h := (C1_ranking_amended ⟨[("documents", "dc")], 2⟩
    (fun name _ =>
      if name = "x" then
        Except.ok [({ page_content := "A", metadata := [] }, 9),
                   ({ page_content := "B", metadata := [] }, 1),
                   ({ page_content := "C", metadata := [] }, 5)]
      else Except.ok [])
    ["x"] [] none none 0).1 (by decide)
  rw [h.1]
  decide

/-- Counterexample to claim C1 as stated: with the default cap of `5`, two
collections returning scores `9` then `1` yield documents in gathered order
`[A, B]` — not the claimed ascending-by-distance order, which would be
`[B, A]`.  No sorting happens when the combined count is within the cap. -/
theorem C1_ranking_counterexample :
    (retrieve_for_rag ⟨[("documents", "dc")], 5⟩
        (fun name _ =>
          if name = "c1" then Except.ok [({ page_content := "A", metadata := [] }, 9)]
          else if name = "c2" then Except.ok [({ page_content := "B", metadata := [] }, 1)]
          else Except.ok [])
        ["c1", "c2"] [] none none 0).documents =
      [{ page_content := "A", metadata := [] },
       { page_content := "B", metadata := [] }]
    ∧ ranked_per_claim 5
        [({ page_content := "A", metadata := [] }, 9),
         ({ page_content := "B", metadata := [] }, 1)] =
      [{ page_content := "B", metadata := [] },
       { page_content := "A", metadata := [] }]
    ∧ ({ page_content := "A", metadata := [] } : Doc) ≠
        { page_content := "B", metadata := [] } := by
  refine ⟨by decide, by decide, by decide⟩

/-- Claim C5 (amended): when `retrieve_for_rag` is called with no collection
names, it searches **only** the collection configured under the `"documents"`
key whenever that key exists — the call behaves exactly like an explicit
request for that single collection; only when no `"documents"` key is
configured does it fan out over all configured collections. -/
theorem C5_default_collections_amended (s : RetrieverSettings)
    (search : SearchFn) (filter_criteria : List (String × FilterVal))
    (document_id : Option String) (document_ids : Option (List String))
    (t_retrieval : Int) :
    (∀ v : String,
      (s.COLLECTIONS.find? (fun p => p.1 = "documents")).map (fun p => p.2) =
          some v →
        retrieve_for_rag s search [] filter_criteria document_id document_ids
            t_retrieval =
          retrieve_for_rag s search [v] filter_criteria document_id
            document_ids t_retrieval)
    ∧ ((s.COLLECTIONS.find? (fun p => p.1 = "documents")) = none →
        s.COLLECTIONS.map (fun p => p.2) ≠ [] →
        retrieve_for_rag s search [] filter_criteria document_id document_ids
            t_retrieval =
          retrieve_for_rag s search (s.COLLECTIONS.map (fun p => p.2))
            filter_criteria document_id document_ids t_retrieval) := by
  constructor
  · intro v hv
    unfold retrieve_for_rag
    rw [if_pos rfl, if_neg (by simp)]
    unfold default_collection_names
    rw [hv]
  · intro hnone hne
    unfold retrieve_for_rag
    rw [if_pos rfl, if_neg hne]
    unfold default_collection_names
    rw [hnone]
    rfl

/-- Witness for C5 (amended) at the repo's default configuration
(`{"documents": "documents_collection", "images": "images_collection"}`). -/
theorem C5_default_collections_amended_witness :
    retrieve_for_rag
        ⟨[("documents", "documents_collection"),
          ("images", "images_collection")], 5⟩
        (fun _ _ => Except.ok []) [] [] none none 0 =
      retrieve_for_rag
        ⟨[("documents", "documents_collection"),
          ("images", "images_collection")], 5⟩
        (fun _ _ => Except.ok []) ["documents_collection"] [] none none 0 :=
  (C5_default_collections_amended
    ⟨[("documents", "documents_collection"),
      ("images", "images_collection")], 5⟩
    (fun _ _ => Except.ok []) [] none none 0).1 "documents_collection" (by decide)

/-- Counterexample to claim C5 as stated: under the repo's default
configuration a call with no collection names misses a document stored in
the configured `images_collection`, while an explicit fan-out over all
configured collections finds it — so the default is **not** the full
configured collection set. -/
theorem C5_default_collections_counterexample :
    (retrieve_for_rag
        ⟨[("documents", "documents_collection"),
          ("images", "images_collection")], 5⟩
        (fun name _ =>
          if name = "images_collection" then
            Except.ok [({ page_content := "img", metadata := [] }, 1)]
          else Except.ok [])
        [] [] none none 0).documents = []
    ∧ (retrieve_for_rag
        ⟨[("documents", "documents_collection"),
          ("images", "images_collection")], 5⟩
        (fun name _ =>
          if name = "images_collection" then
            Except.ok [({ page_content := "img", metadata := [] }, 1)]
          else Except.ok [])
        ["documents_collection", "images_collection"] [] none none 0).documents =
      [{ page_content := "img", metadata := [] }] := by
  refine ⟨by decide, by decide⟩

/-! ## Tabular parser (`parsers/structured_parser.py`)

`StructuredDataParser._process_dataframe` turns a pandas DataFrame into
views.  The DataFrame is columns plus rows of optional cells (`none` =
null).  pandas' `to_string(index=False)` rendering and the random draw
behind `Series.sample` are external, passed as `render` and `draw`; the
chunking service's `split_documents` is the `chunk` parameter.
`Series.sample(n)` draws without replacement and raises a `ValueError`
whenever `n` exceeds the series' length; the source calls it with
`min(3, len(df))` on each column's non-null values, so a column with fewer
non-null values than that makes `_process_dataframe` raise and produce no
views at all — the raise is the `.error` outcome below. -/

/-- A DataFrame: column names and rows of optional cells. -/
structure DataFrame where
  columns : List String
  rows : List (List (Option String))
deriving DecidableEq

/-- `len(df)`. -/
def dfLen (df : DataFrame) : Nat := df.rows.length

/-- `df.iloc[i : i+n]`. -/
def dfSlice (df : DataFrame) (i n : Nat) : DataFrame :=
  ⟨df.columns, (df.rows.drop i).take n⟩

/-- `range(0, n, 20)`: the batch start offsets. -/
def batch_starts (n : Nat) : List Nat :=
  (List.range ((n + 19) / 20)).map (fun j => j * 20)

/-- `df[column].dropna()` for the `j`-th column. -/
def col_non_null (df : DataFrame) (j : Nat) : List String :=
  df.rows.filterMap (fun r =>
    match r.get? j with
    | some (some v) => some v
    | _ => none)

/-- pandas `Series.sample(n)` (without replacement): raises — `.error ()` —
when `n` exceeds the population size, else returns the external random
draw's selection of `n` elements. -/
def series_sample (draw : List String → Nat → List String)
    (population : List String) (n : Nat) : Except Unit (List String) :=
  if population.length < n then
    Except.error ()
  else
    Except.ok (draw population n)

/-- One iteration of the column-description loop:
`df[column].dropna().sample(min(3, len(df)))` (the point where the source
can raise), then the column's rendered line. -/
def column_line (draw : List String → Nat → List String) (df : DataFrame)
    (j : Nat) (name : String) : Except Unit String :=
  match series_sample draw (col_non_null df j) (min 3 (dfLen df)) with
  | .error e => .error e
  | .ok samples =>
    .ok ("- " ++ name ++ ": Sample values: " ++
      String.intercalate ", " samples ++ "\n")

/-- Run a fallible step over a list, stopping at the first raise (the
source's loop stops there too: the exception propagates). -/
def except_map_list {ε α β : Type} (f : α → Except ε β) :
    List α → Except ε (List β)
  | [] => .ok []
  | a :: l =>
    match f a with
    | .error e => .error e
    | .ok b =>
      match except_map_list f l with
      | .error e => .error e
      | .ok bs => .ok (b :: bs)

/-- The column-description view text: the header plus one line per column.
(The source accumulates with `+=`; concatenating the per-column lines after
the header yields the same string.) -/
def column_text (draw : List String → Nat → List String) (df : DataFrame) :
    Except Unit String :=
  match except_map_list (fun p => column_line draw df p.1 p.2) df.columns.enum with
  | .error e => .error e
  | .ok lines => .ok ("Column descriptions:\n" ++ String.join lines)

/-- One produced table view, tagged as the source tags it in metadata. -/
structure View where
  page_content : String
  representation : String
  row_range : Option String := none
deriving DecidableEq

/-- The `documents` list `_process_dataframe` builds before chunking, for a
given column-view text `ct`: the full table (only when `len(df) <= 50`),
then the row batches stepping by 20, then the column-description view. -/
def views_of (render : DataFrame → String) (df : DataFrame) (ct : String) :
    List View :=
  (if dfLen df ≤ 50 then [{ page_content := render df, representation := "full_table" }]
   else [])
  ++ (batch_starts (dfLen df)).map (fun i =>
      { page_content := render (dfSlice df i 20), representation := "batch",
        row_range := some (toString i ++ "-" ++ toString (min (i + 19) (dfLen df - 1))) })
  ++ [{ page_content := ct, representation := "columns" }]

/-- The view-building phase of `_process_dataframe`.  The source builds the
full-table and batch views first and the column view last, but a raise in
the column loop discards the list built so far, so the outcome is all the
views exactly when the column text is produced, and the raise otherwise. -/
def dataframe_views (render : DataFrame → String)
    (draw : List String → Nat → List String) (df : DataFrame) :
    Except Unit (List View) :=
  match column_text draw df with
  | .error e => .error e
  | .ok ct => .ok (views_of render df ct)

/-- `StructuredDataParser._process_dataframe`: build the views, then pass
each through the chunking service and concatenate; a raise propagates. -/
def process_dataframe (render : DataFrame → String)
    (draw : List String → Nat → List String) (chunk : View → List View)
    (df : DataFrame) : Except Unit (List View) :=
  match dataframe_views render draw df with
  | .error e => .error e
  | .ok vs => .ok ((vs.map chunk).flatten)

theorem countP_views_of (render : DataFrame → String) (df : DataFrame)
    (ct : String) :
    ((views_of render df ct).countP (fun w => w.representation = "full_table") =
      if dfLen df ≤ 50 then 1 else 0)
    ∧ (views_of render df ct).countP (fun w => w.representation = "batch") =
      (dfLen df + 19) / 20
    ∧ (views_of render df ct).countP (fun w => w.representation = "columns") = 1 := by
  refine ⟨?_, ?_, ?_⟩
  · by_cases h : dfLen df ≤ 50 <;>
      simp [views_of, h, List.countP_append, List.countP_map, Function.comp]
  · have hb : List.countP (fun w => w.representation = "batch")
        ((batch_starts (dfLen df)).map (fun i =>
          ({ page_content := render (dfSlice df i 20), representation := "batch",
             row_range := some (toString i ++ "-" ++
               toString (min (i + 19) (dfLen df - 1))) } : View))) =
        (dfLen df + 19) / 20 := by
      rw [List.countP_eq_length.mpr ?_]
      · simp [batch_starts, List.length_range]
      · intro a ha
        obtain ⟨i, _, rfl⟩ := List.mem_map.mp ha
        simp
    by_cases h : dfLen df ≤ 50 <;>
      simp [views_of, h, List.countP_append, hb]
  · by_cases h : dfLen df ≤ 50 <;>
      simp [views_of, h, List.countP_append, List.countP_map, Function.comp]

theorem except_map_list_ok_of_forall {ε α β : Type} (f : α → Except ε β)
    (l : List α) (h : ∀ a ∈ l, ∃ b, f a = Except.ok b) :
    ∃ bs, except_map_list f l = Except.ok bs := by
  induction l with
  | nil => exact ⟨[], rfl⟩
  | cons a l ih =>
    obtain ⟨b, hb⟩ := h a (List.mem_cons_self a l)
    obtain ⟨bs, hbs⟩ := ih (fun x hx => h x (List.mem_cons_of_mem a hx))
    exact ⟨b :: bs, by simp only [except_map_list, hb, hbs]⟩

theorem except_map_list_error_unit {α β : Type} (f : α → Except Unit β)
    (l : List α) (h : ∃ a ∈ l, f a = Except.error ()) :
    except_map_list f l = Except.error () := by
  induction l with
  | nil => simp at h
  | cons a l ih =>
    obtain ⟨x, hx, hfx⟩ := h
    cases hfa : f a with
    | error e =>
      cases e
      simp only [except_map_list, hfa]
    | ok b =>
      have hxl : x ∈ l := by
        rcases List.mem_cons.mp hx with rfl | h2
        · rw [hfa] at hfx
          cases hfx
        · exact h2
      simp only [except_map_list, hfa, ih ⟨x, hxl, hfx⟩]

/-- Claim C8 (amended): when every column has at least `min(3, len(df))`
non-null values, the tabular parser produces the full table as one text view
exactly when the row count is **at most** 50 (`len(df) <= 50`, not strictly
below), `ceil(n/20)` row batches stepping by 20 rows, and exactly one
column-description view listing each column with the `min(3, len(df))`
sampled non-null values, and every view is passed through the Chunking
Engine; but when any column has fewer non-null values than
`min(3, len(df))`, `Series.sample` raises a `ValueError` and
`_process_dataframe` raises, producing no views at all. -/
theorem C8_dataframe_views_amended (render : DataFrame → String)
    (draw : List String → Nat → List String) (chunk : View → List View)
    (df : DataFrame) :
    ((∀ p ∈ df.columns.enum, min 3 (dfLen df) ≤ (col_non_null df p.1).length) →
      ∃ vs, dataframe_views render draw df = Except.ok vs
        ∧ (vs.countP (fun w => w.representation = "full_table") =
            if dfLen df ≤ 50 then 1 else 0)
        ∧ vs.countP (fun w => w.representation = "batch") = (dfLen df + 19) / 20
        ∧ vs.countP (fun w => w.representation = "columns") = 1
        ∧ process_dataframe render draw chunk df =
            Except.ok ((vs.map chunk).flatten))
    ∧ ((∃ p ∈ df.columns.enum,
          (col_non_null df p.1).length < min 3 (dfLen df)) →
        dataframe_views render draw df = Except.error ()
        ∧ process_dataframe render draw chunk df = Except.error ()) := by
  constructor
  · intro h
    have hok : ∀ p ∈ df.columns.enum,
        ∃ b, (fun p : Nat × String => column_line draw df p.1 p.2) p =
          Except.ok b := by
      intro p hp
      refine ⟨"- " ++ p.2 ++ ": Sample values: " ++
        String.intercalate ", " (draw (col_non_null df p.1) (min 3 (dfLen df))) ++
        "\n", ?_⟩
      simp only [column_line, series_sample]
      rw [if_neg (not_lt.mpr (h p hp))]
    obtain ⟨lines, hlines⟩ := except_map_list_ok_of_forall _ _ hok
    refine ⟨views_of render df ("Column descriptions:\n" ++ String.join lines),
      ?_, (countP_views_of render df _).1, (countP_views_of render df _).2.1,
      (countP_views_of render df _).2.2, ?_⟩
    · simp only [dataframe_views, column_text, hlines]
    · simp only [process_dataframe, dataframe_views, column_text, hlines]
  · intro hbad
    obtain ⟨p, hp, hlt⟩ := hbad
    have herr : except_map_list
        (fun p : Nat × String => column_line draw df p.1 p.2) df.columns.enum =
        Except.error () := by
      apply except_map_list_error_unit
      refine ⟨p, hp, ?_⟩
      simp only [column_line, series_sample]
      rw [if_pos hlt]
    exact ⟨by simp only [dataframe_views, column_text, herr],
      by simp only [process_dataframe, dataframe_views, column_text, herr]⟩

/-- A one-row, fully non-null table: the success case of C8 (amended). -/
def df_one : DataFrame := ⟨["c"], [[some "x"]]⟩

/-- A three-row table whose only column is all null: its non-null count 0 is
below `min(3, 3)`, so `Series.sample` raises. -/
def df_null_col : DataFrame := ⟨["c"], [[none], [none], [none]]⟩

/-- Witness for C8 (amended) at concrete inputs: the one-row table yields
views with one column-description view; the all-null-column table makes
`_process_dataframe` raise. -/
theorem C8_dataframe_views_amended_witness :
    (∃ vs, dataframe_views (fun _ => "T") (fun v n => v.take n) df_one =
        Except.ok vs
      ∧ vs.countP (fun w => w.representation = "columns") = 1)
    ∧ process_dataframe (fun _ => "T") (fun v n => v.take n) (fun v => [v])
        df_null_col = Except.error () := by
  constructor
  · obtain ⟨vs, h1, _, _, h4, _⟩ :=
      (C8_dataframe_views_amended (fun _ => "T") (fun v n => v.take n)
        (fun v => [v]) df_one).1 (by decide)
    exact ⟨vs, h1, h4⟩
  · exact ((C8_dataframe_views_amended (fun _ => "T") (fun v n => v.take n)
      (fun v => [v]) df_null_col).2 ⟨(0, "c"), by decide, by decide⟩).2

/-- A 50-row, one-column table (with a trivial rendering and a deterministic
stand-in for the sampler's random draw). -/
def df50 : DataFrame := ⟨["c"], List.replicate 50 [some "x"]⟩

/-- Counterexample to claim C8 as stated: at exactly 50 rows — which is not
"below the threshold of 50" — the code still produces the full-table view,
because the source tests `len(df) <= 50`. -/
theorem C8_dataframe_views_counterexample :
    ((dataframe_views (fun _ => "T") (fun v n => v.take n) df50).toOption.map
        (fun vs => vs.countP (fun w => w.representation = "full_table"))) =
      some 1
    ∧ ¬ (dfLen df50 < 50) := by
  refine ⟨by decide, by decide⟩

/-! ## Ingestion entry point (`document_processor.py`, `parsers/factory.py`)

`DocumentProcessor.process_file` uploads the raw bytes to object storage,
creates a relational document record, then resolves a parser and continues.
The uuid draw, the filename-extension computation (`os.path.splitext` /
`mimetypes.guess_extension`, Python standard library), and the parser's byte
extraction are external: they enter as `doc_id`, `file_extension` and
`parse_outcome`.  External storage state is threaded explicitly. -/

/-- Python `s.startswith(pre)`. -/
def pyStartsWith (s pre : String) : Bool :=
  (dropPat pre.data s.data).isSome

/-- The parsers `ParserFactory.parser_for_mime` can dispatch to. -/
inductive ParserKind where
  | document
  | text
  | image
  | web
deriving DecidableEq

/-- `ParserFactory.parser_for_mime` (`parsers/factory.py`): exact match for the
portable-document types, `text/*` or JSON to the text parser, `image/*` to
the image parser, HTML/web to the web parser (unreachable after the `text/*`
arm, as in the source), else no parser. -/
def parser_for_mime (mime_type : String) : Option ParserKind :=
  if mime_type = "application/pdf" ∨
      mime_type = "application/vnd.openxmlformats-officedocument.wordprocessingml.document" then
    some .document
  else if pyStartsWith mime_type "text/" ∨ mime_type = "application/json" then
    some .text
  else if pyStartsWith mime_type "image/" then
    some .image
  else if mime_type = "text/html" ∨ mime_type = "application/web" then
    some .web
  else
    none

/-- A row of the relational `documents` table (the fields `process_file`
writes). -/
structure DbDocumentRow where
  id : String
  filename : String
  mime_type : String
  is_processed : Bool
  is_indexed : Bool
  processing_error : Option String
deriving DecidableEq

/-- The external state `process_file` mutates: object storage entries
(object name, content type), document rows, chunk rows
(document id, chunk index, content), and vector-store insertions
(collection name, embedded segment). -/
structure PipelineState where
  storage : List (String × String)
  documents : List DbDocumentRow
  chunks : List (String × Nat × String)
  vectors : List (String × Doc)
deriving DecidableEq

/-- The dictionary `process_file` returns. -/
structure ProcessOutcome where
  id : Option String
  status : String
  error : Option String := none
  message : Option String := none
  chunk_count : Option Nat := none
  collection : Option String := none
deriving DecidableEq

/-- Record a processing error on the document row with the given id
(`db_document.processing_error = ...; db_document.is_processed = True`). -/
def mark_document_error (rows : List DbDocumentRow) (doc_id msg : String) :
    List DbDocumentRow :=
  rows.map (fun row =>
    if row.id = doc_id then
      { row with processing_error := some msg, is_processed := true }
    else row)

/-- Python dict assignment `metadata[k] = v`. -/
def meta_set (m : List (String × MetaVal)) (k : String) (v : MetaVal) :
    List (String × MetaVal) :=
  if m.any (fun p => p.1 = k) then
    m.map (fun p => if p.1 = k then (p.1, v) else p)
  else
    m ++ [(k, v)]

/-- `DocumentProcessor.process_file` with a database session (`db = true`)
or without.  Order of effects as in the source: upload to object storage,
create the document record, resolve the parser (no parser → error result),
parse (`parse_outcome`; a raised parse lands in the outer `except`, which
records the error and returns an error result), store chunk rows, add the
segments to the vector store under `"images"` for `image/*` MIME types and
`"documents"` otherwise (a raising vector-store add would likewise land in
the outer `except`; it is out of scope here and modelled as succeeding). -/
def process_file (db : Bool) (doc_id filename mime_type file_extension : String)
    (parse_outcome : Except String (List Doc)) (st : PipelineState) :
    ProcessOutcome × PipelineState :=
  let object_name := doc_id ++ file_extension
  let st1 := { st with storage := st.storage ++ [(object_name, mime_type)] }
  let row : DbDocumentRow :=
    { id := doc_id, filename := filename, mime_type := mime_type,
      is_processed := false, is_indexed := false, processing_error := none }
  let st2 := if db then { st1 with documents := st1.documents ++ [row] } else st1
  match parser_for_mime mime_type with
  | none =>
    let msg := "No parser available for MIME type: " ++ mime_type
    let st3 := if db then
        { st2 with documents := mark_document_error st2.documents doc_id msg }
      else st2
    ({ id := some doc_id, status := "error", error := some msg }, st3)
  | some _ =>
    match parse_outcome with
    | .error e =>
      let st3 := if db then
          { st2 with documents := mark_document_error st2.documents doc_id e }
        else st2
      ({ id := some doc_id, status := "error", error := some e }, st3)
    | .ok [] =>
      let st3 := if db then
          { st2 with documents :=
              (mark_document_error st2.documents doc_id
                "No content extracted from document") }
        else st2
      ({ id := some doc_id, status := "warning",
         message := some "Document processed but no content was extracted" }, st3)
    | .ok parsed =>
      let st3 := if db then
          { st2 with
            chunks := st2.chunks ++
              parsed.enum.map (fun p => (doc_id, p.1, p.2.page_content)),
            documents := st2.documents.map (fun r =>
              if r.id = doc_id then { r with is_processed := true } else r) }
        else st2
      let collection_name :=
        if pyStartsWith mime_type "image/" then "images" else "documents"
      let docs_with_id := parsed.map (fun d =>
        { d with metadata := meta_set d.metadata "document_id" (.s doc_id) })
      let st4 := { st3 with vectors :=
        (st3.vectors ++ docs_with_id.map (fun d => (collection_name, d))) }
      let st5 := if db then
          { st4 with documents := st4.documents.map (fun r =>
              if r.id = doc_id then { r with is_indexed := true } else r) }
        else st4
      ({ id := some doc_id, status := "success",
         chunk_count := some parsed.length,
         collection := some collection_name }, st5)

/-- Claim C10: when `process_file` is given a MIME type with no parser, it
returns (never raises) a result with status `"error"` and the freshly
generated document id — and only after the bytes were uploaded to object
storage and a document record created: both persist in the post-state, the
record carrying the error. -/
theorem C10_process_file_unsupported_mime (doc_id filename mime_type file_extension : String)
    (parse_outcome : Except String (List Doc)) (st : PipelineState)
    (hparser : parser_for_mime mime_type = none)
    (hfresh : ∀ row ∈ st.documents, row.id ≠ doc_id) :
    (process_file true doc_id filename mime_type file_extension parse_outcome
        st).1 =
      { id := some doc_id, status := "error",
        error := some ("No parser available for MIME type: " ++ mime_type),
        message := none, chunk_count := none, collection := none }
    ∧ (process_file true doc_id filename mime_type file_extension parse_outcome
        st).2.storage = st.storage ++ [(doc_id ++ file_extension, mime_type)]
    ∧ (process_file true doc_id filename mime_type file_extension parse_outcome
        st).2.documents = st.documents ++
        [{ id := doc_id, filename := filename, mime_type := mime_type,
           is_processed := true, is_indexed := false,
           processing_error :=
             some ("No parser available for MIME type: " ++ mime_type) }] := by
  have hmark : mark_document_error
      (st.documents ++
        [{ id := doc_id, filename := filename, mime_type := mime_type,
           is_processed := false, is_indexed := false,
           processing_error := none }]) doc_id
      ("No parser available for MIME type: " ++ mime_type) =
      st.documents ++
        [{ id := doc_id, filename := filename, mime_type := mime_type,
           is_processed := true, is_indexed := false,
           processing_error :=
             some ("No parser available for MIME type: " ++ mime_type) }] := by
    unfold mark_document_error
    rw [List.map_append]
    congr 1
    · conv_rhs => rw [← List.map_id st.documents]
      apply List.map_congr_left
      intro row hrow
      rw [if_neg (hfresh row hrow)]
      rfl
    · simp
  refine ⟨?_, ?_, ?_⟩
  · simp [process_file, hparser]
  · simp [process_file, hparser]
  · simp [process_file, hparser]
    exact hmark

/-- Witness for C10 at a concrete input: a ZIP upload (no parser exists for
`application/zip`) against empty external state. -/
theorem C10_process_file_unsupported_mime_witness :
    (process_file true "id-1" "a.zip" "application/zip" ".zip"
        (Except.ok []) ⟨[], [], [], []⟩).1 =
      { id := some "id-1", status := "error",
        error := some "No parser available for MIME type: application/zip",
        message := none, chunk_count := none, collection := none }
    ∧ (process_file true "id-1" "a.zip" "application/zip" ".zip"
        (Except.ok []) ⟨[], [], [], []⟩).2.storage =
        [("id-1.zip", "application/zip")]
    ∧ (process_file true "id-1" "a.zip" "application/zip" ".zip"
        (Except.ok []) ⟨[], [], [], []⟩).2.documents =
        [{ id := "id-1", filename := "a.zip", mime_type := "application/zip",
           is_processed := true, is_indexed := false,
           processing_error :=
             some "No parser available for MIME type: application/zip" }] :=
  C10_process_file_unsupported_mime "id-1" "a.zip" "application/zip" ".zip"
    (Except.ok []) ⟨[], [], [], []⟩ (by decide) (by simp)
